import Mathlib

/-!
Verification model of target-shopify (src/target_shopify/__init__.py).

The Python source is shallowly embedded: JSON records become the inductive
type JVal, each upload routine becomes a Lean function from its input
records and an oracle for the remote Shopify API to a trace of observable
effects together with an optional uncaught Python exception, and the
stacked backoff decorators on insert_record become an explicit two-level
retry interpreter driven by an oracle listing the outcome of each
successive obj.save() attempt.
-/

namespace TargetShopify

/-! ## JSON values

Input records (products.json, orders.json, ...) are loosely typed JSON
objects.  Numbers are modelled as integers; the monetary values the code
moves around are copied verbatim and never computed with, so strings can
stand in for decimals where needed. -/

inductive JVal where
  | null
  | bool (b : Bool)
  | num (n : Int)
  | str (s : String)
  | arr (xs : List JVal)
  | obj (kvs : List (String × JVal))

mutual

/-- Python equality (==) on JSON values, used by the variant-title match
in upload_products.  Object comparison is field-list equality; the code
only ever compares scalar titles, where this coincides with Python. -/
def JVal.beq : JVal → JVal → Bool
  | .null, .null => true
  | .bool a, .bool b => a == b
  | .num a, .num b => a == b
  | .str a, .str b => a == b
  | .arr a, .arr b => JVal.beqArr a b
  | .obj a, .obj b => JVal.beqObj a b
  | _, _ => false

/-- Elementwise equality of JSON arrays. -/
def JVal.beqArr : List JVal → List JVal → Bool
  | [], [] => true
  | x :: xs, y :: ys => JVal.beq x y && JVal.beqArr xs ys
  | _, _ => false

/-- Fieldwise equality of JSON objects. -/
def JVal.beqObj : List (String × JVal) → List (String × JVal) → Bool
  | [], [] => true
  | (k1, v1) :: xs, (k2, v2) :: ys => k1 == k2 && JVal.beq v1 v2 && JVal.beqObj xs ys
  | _, _ => false

end

instance : BEq JVal := ⟨JVal.beq⟩

/-- Python dict lookup on an association list (dict keys are unique and
ordered by insertion; first match wins). -/
def lookupKV : List (String × JVal) → String → Option JVal
  | [], _ => none
  | (k', v) :: rest, k => if k' = k then some v else lookupKV rest k

/-- Python `d.get(k)` / `d[k]` access on a JSON value; only objects have
keys (the code only ever indexes dicts here). -/
def jget : JVal → String → Option JVal
  | .obj kvs, k => lookupKV kvs k
  | _, _ => none

/-- Python dict assignment `d[k] = v`: overwrite in place if the key
exists, otherwise append at the end (insertion order). -/
def setKey : List (String × JVal) → String → JVal → List (String × JVal)
  | [], k, v => [(k, v)]
  | (k', v') :: rest, k, v =>
      if k' = k then (k, v) :: rest else (k', v') :: setKey rest k v

/-- Dict assignment lifted to a JSON value (the code only assigns into
dicts; non-objects are returned unchanged, that branch is never taken). -/
def jset (j : JVal) (k : String) (v : JVal) : JVal :=
  match j with
  | .obj kvs => .obj (setKey kvs k v)
  | other => other

/-- Python truthiness of a JSON value (None, False, 0, "", [] and the
empty dict are falsy). -/
def JVal.truthy : JVal → Bool
  | .null => false
  | .bool b => b
  | .num n => n != 0
  | .str s => s != ""
  | .arr xs => !xs.isEmpty
  | .obj kvs => !kvs.isEmpty

/-- Truthiness of `d.get(k)` (a missing key gives None, which is falsy). -/
def truthyOpt : Option JVal → Bool
  | none => false
  | some v => v.truthy

/-- Membership test `k in d` for an object. -/
def hasKey (j : JVal) (k : String) : Bool :=
  (jget j k).isSome

/-! ## Python exceptions

The exception classes the code distinguishes.  ClientError carries the
HTTP status code (`exc.code`, absent on some instances) and the response
headers read by retry_after_wait_gen. -/

inductive PyExc where
  | clientError (code : Option Nat) (headers : List (String × String))
  | serverError
  | formatError
  | jsonDecodeError
  | resourceNotFound
  | keyError (k : String)
  | attributeError
  | typeError
  | indexError
  | otherExc
deriving DecidableEq

/-- Membership in pyactiveresource.connection.ClientError (the inner
decorator's exception class).  ResourceNotFound is a ClientError subclass
in pyactiveresource, but the code never routes it through insert_record,
so it is kept separate for the find() calls. -/
def isClientError : PyExc → Bool
  | .clientError _ _ => true
  | _ => false

/-- Membership in the outer decorator's exception tuple
(ServerError, formats.Error, JSONDecodeError, Exception): the trailing
bare Exception makes it match every exception. -/
def matchesOuterTuple : PyExc → Bool := fun _ => true

/-! ## The retry wrapper

insert_record is obj.save() under two stacked backoff.on_exception
decorators (backoff==1.11.1).  The decorated call is interpreted against
an oracle: the list of outcomes that successive obj.save() attempts would
produce (either a raised exception or the returned truthiness flag). -/

/-- MAX_RETRIES from the source. -/
def MAX_RETRIES : Nat := 5

/-- Outcome of one underlying obj.save() attempt. -/
abbrev Attempt := Except PyExc Bool

/-- Sleep requested by one of the two retry policies.  backoff's default
full_jitter draws the actual duration uniformly from [0, w]; the model
records the pre-jitter wait w requested by the policy. -/
inductive SleepEvt where
  | retryAfter (w : Nat)
  | expo (w : Nat)
deriving DecidableEq

/-- Exact-key dict lookup on HTTP response headers (resp.headers is a
plain dict in pyactiveresource, so get is case-sensitive). -/
def headerGet : List (String × String) → String → Option String
  | [], _ => none
  | (k', v) :: rest, k => if k' = k then some v else headerGet rest k

/-- Value of a digit string (most significant digit first). -/
def natOfDigits : List Char → Nat :=
  List.foldl (fun acc c => acc * 10 + (c.toNat - 48)) 0

/-- Model of math.floor(float(s)) for the nonnegative decimal literals a
Retry-After header carries (digits with an optional fractional part);
any other string makes float() raise, which the model reports as a parse
failure. -/
def parseFloorFloat (s : String) : Option Nat :=
  let cs := s.toList
  let intPart := cs.takeWhile Char.isDigit
  let rest := cs.dropWhile Char.isDigit
  if intPart.isEmpty then none
  else
    match rest with
    | [] => some (natOfDigits intPart)
    | '.' :: frac => if frac.all Char.isDigit then some (natOfDigits intPart) else none
    | _ => none

/-- Wait computed by the single yield of retry_after_wait_gen: the current
exception's response headers are read at the key Retry-After, falling back
to the exact lowercase key retry-after, and the value goes through
math.floor(float(.)).  none means the generator body itself raised
(missing/garbled header, or an exception without a response). -/
def retry_after_wait_gen (e : PyExc) : Option Nat :=
  match e with
  | .clientError _ headers =>
      (match headerGet headers "Retry-After" with
       | some s => some s
       | none => headerGet headers "retry-after").bind parseFloorFloat
  | _ => none

/-- The giveup predicate built by is_not_status_code_fn: give up when the
exception carries a truthy code attribute that is not in the list
(getattr(exc, 'code', None) is falsy when the attribute is absent or 0). -/
def is_not_status_code_fn (status_code : List Nat) (exc : PyExc) : Bool :=
  match exc with
  | .clientError (some c) _ => c != 0 && !(status_code.contains c)
  | _ => false

/-- One invocation of the inner-decorated function
(backoff.on_exception(retry_after_wait_gen, ClientError,
giveup=is_not_status_code_fn([429])), no max_tries).  fresh records
whether the single-yield wait generator initialized for this invocation
still has its one value; once it is exhausted, the next backoff event
raises StopIteration, which backoff 1.11.1 turns into a giveup that
re-raises the pending exception.  Returns the sleeps requested, the
number of oracle entries (save attempts) consumed, and the outcome;
none when the oracle is too short to decide the run. -/
def innerRetry : List Attempt → Bool → Option (List SleepEvt × Nat × Except PyExc Bool)
  | [], _ => none
  | a :: rest, fresh =>
    match a with
    | .ok b => some ([], 1, .ok b)
    | .error e =>
      if !isClientError e then
        -- the except clause does not match: the exception passes through
        some ([], 1, .error e)
      else if is_not_status_code_fn [429] e then
        -- giveup: re-raise immediately
        some ([], 1, .error e)
      else if fresh then
        match retry_after_wait_gen e with
        | some w =>
          match innerRetry rest false with
          | none => none
          | some (sleeps, k, r) => some (.retryAfter w :: sleeps, k + 1, r)
        | none =>
          -- float(None) / float(garbage) raised inside the generator
          some ([], 1, .error .typeError)
      else
        -- StopIteration from the exhausted generator: give up, re-raise
        some ([], 1, .error e)

/-- The outer decorator (backoff.on_exception(backoff.expo, (ServerError,
formats.Error, JSONDecodeError, Exception), max_tries=MAX_RETRIES))
around the inner-decorated function.  triesLeft counts the attempts the
bounded budget still allows (starting at MAX_RETRIES); n is the state of
the backoff.expo generator, whose next value is 2 ^ n. -/
def outerRetry : Nat → Nat → List Attempt → Option (List SleepEvt × Nat × Except PyExc Bool)
  | 0, _, _ => none
  | triesLeft + 1, n, oracle =>
    match innerRetry oracle true with
    | none => none
    | some (sleeps, k, .ok b) => some (sleeps, k, .ok b)
    | some (sleeps, k, .error e) =>
      if triesLeft = 0 then
        -- tries == max_tries: give up and re-raise
        some (sleeps, k, .error e)
      else
        match outerRetry triesLeft (n + 1) (oracle.drop k) with
        | none => none
        | some (sleeps2, k2, r) => some (sleeps ++ .expo (2 ^ n) :: sleeps2, k + k2, r)

/-- insert_record(obj): obj.save() under both decorators, run against the
oracle of successive save outcomes.  Yields the requested sleeps, the
number of save attempts made, and the returned value or the exception
that escapes. -/
def insert_record (oracle : List Attempt) : Option (List SleepEvt × Nat × Except PyExc Bool) :=
  outerRetry MAX_RETRIES 0 oracle

/-- Sleeps of a finished insert_record run. -/
def sleepsOf (r : Option (List SleepEvt × Nat × Except PyExc Bool)) : List SleepEvt :=
  match r with
  | none => []
  | some (s, _, _) => s

/-- Number of save attempts of a finished insert_record run. -/
def attemptsOf (r : Option (List SleepEvt × Nat × Except PyExc Bool)) : Nat :=
  match r with
  | none => 0
  | some (_, k, _) => k

/-- Whether a finished insert_record run ended with an escaping exception. -/
def endsInError (r : Option (List SleepEvt × Nat × Except PyExc Bool)) : Bool :=
  match r with
  | some (_, _, .error _) => true
  | _ => false

/-- Count of the sleeps a run spent honoring Retry-After. -/
def countRetryAfter (sleeps : List SleepEvt) : Nat :=
  sleeps.countP fun s => match s with | .retryAfter _ => true | _ => false

/-! ## upload_products

Per product record the code builds a shopify.Product payload, saves it
once through insert_record, and then walks the input variants pairing
them by title with the variants the save wrote back onto the product
(the API response includes each variant's inventory_item_id). -/

/-- One variant as returned by the product save: the title used for the
match and the inventory_item_id used for the inventory call. -/
structure SavedVariant where
  title : JVal
  inventory_item_id : Nat

/-- Oracle for the remote calls upload_products makes: the GraphQL
location id string, and for each saved payload the insert_record result
(its truthiness, plus the variants written back onto the product). -/
structure ProductsApi where
  locationGid : String
  save : JVal → Bool × List SavedVariant

/-- Observable effects of upload_products. -/
inductive PEffect where
  | productSave (payload : JVal)
  | inventorySet (lid : String) (inventory_item_id : Nat) (quantity : JVal)

/-- Characters after the first occurrence of sep, none when sep does not
occur. -/
def dropAfterFirst (sep : List Char) : List Char → Option (List Char)
  | [] => none
  | c :: cs =>
    if sep.isPrefixOf (c :: cs) then some (List.drop sep.length (c :: cs))
    else dropAfterFirst sep cs

/-- Location id extraction before the loop:
locations["data"]["location"]["id"].split("gid://shopify/Location/")[1].
When the separator does not occur the split has one element and index
[1] raises IndexError; when it does, element [1] is the text after its
first occurrence (the gid strings the API returns carry the separator
exactly once, as a prefix, so a following occurrence never truncates). -/
def extractLid (gid : String) : Option String :=
  (dropAfterFirst ("gid://shopify/Location/".toList) gid.toList).map fun cs => String.mk cs

/-- Append field k of the record if present and truthy (the
`if p.get(k): sp.k = p[k]` pattern). -/
def addIfTruthy (p : JVal) (k : String) (acc : List (String × JVal)) : List (String × JVal) :=
  match jget p k with
  | some v => if v.truthy then acc ++ [(k, v)] else acc
  | none => acc

/-- The sp payload assembled before the save: the required title, the
truthy optional fields in source order, and, when present and truthy,
the variants each copied attribute-for-attribute (verbatim). -/
def buildProduct (p : JVal) (title : JVal) : JVal :=
  let base := [("title", title)]
  let base := addIfTruthy p "product_type" base
  let base := addIfTruthy p "body_html" base
  let base := addIfTruthy p "vendor" base
  let base := addIfTruthy p "tags" base
  let base := addIfTruthy p "images" base
  let base :=
    if truthyOpt (jget p "variants") then base ++ [("variants", (jget p "variants").getD .null)]
    else base
  .obj base

/-- The post-save inventory loop over the input variants.  The source
guard `if "inventory_quantity" not in v: pass` is a no-op, so every
variant reaches the title match and the v["inventory_quantity"] read.
With no returned variants the title match yields None and reading
.inventory_item_id on it raises AttributeError; a missing title or
inventory_quantity key raises KeyError. -/
def invLoop (lid : String) (saved : List SavedVariant) : List JVal → List PEffect × Option PyExc
  | [] => ([], none)
  | v :: rest =>
    match saved with
    | [] => ([], some .attributeError)
    | _ :: _ =>
      match jget v "title" with
      | none => ([], some (.keyError "title"))
      | some vt =>
        match saved.find? (fun x => JVal.beq x.title vt) with
        | none => ([], some .attributeError)
        | some x =>
          match jget v "inventory_quantity" with
          | none => ([], some (.keyError "inventory_quantity"))
          | some q =>
            let (t, e) := invLoop lid saved rest
            (.inventorySet lid x.inventory_item_id q :: t, e)

/-- The body of the per-product loop: read the required title (KeyError
when absent), build and save the payload, then, when the record has
truthy variants, run the inventory loop against the variants the save
returned.  The save's success flag is assigned but never checked in the
source. -/
def processProduct (lid : String) (api : ProductsApi) (p : JVal) : List PEffect × Option PyExc :=
  match jget p "title" with
  | none => ([], some (.keyError "title"))
  | some title =>
    let sp := buildProduct p title
    let (_success, savedVariants) := api.save sp
    if truthyOpt (jget p "variants") then
      match jget p "variants" with
      | some (.arr vs) =>
        let (t, e) := invLoop lid savedVariants vs
        (.productSave sp :: t, e)
      | _ => ([.productSave sp], some .typeError)
    else
      ([.productSave sp], none)

/-- The per-product loop: no per-record handler exists, so any exception
from one record aborts the remaining records of the file. -/
def productsLoop (lid : String) (api : ProductsApi) : List JVal → List PEffect × Option PyExc
  | [] => ([], none)
  | p :: rest =>
    let (t, e) := processProduct lid api p
    match e with
    | some err => (t, some err)
    | none =>
      let (t2, e2) := productsLoop lid api rest
      (t ++ t2, e2)

/-- upload_products: extract the location id from the GraphQL response,
then process every product record in order. -/
def upload_products (api : ProductsApi) (products : List JVal) : List PEffect × Option PyExc :=
  match extractLid api.locationGid with
  | none => ([], some .indexError)
  | some lid => productsLoop lid api products

/-- Whether a products effect is the product save. -/
def isProductSave : PEffect → Bool
  | .productSave _ => true
  | _ => false

/-- Whether a products effect is an inventory-set call. -/
def isInventorySet : PEffect → Bool
  | .inventorySet _ _ _ => true
  | _ => false

/-! ## upload_orders

Per order record the code builds shopify.LineItem objects, resolving a
missing (or falsy) variant_id through get_variant_by_sku, and saves one
shopify.Order holding the successfully resolved line items. -/

/-- A line item as placed on the order: the variant id value and the
quantity. -/
structure OrderLine where
  variant_id : JVal
  quantity : JVal

/-- Oracle for the remote calls upload_orders makes.  getVariantBySku
models get_variant_by_sku: .ok is the id string split off the returned
gid, .error any exception the lookup chain raises — the call site's bare
except catches them all alike.  saveOrder is the insert_record result
for the assembled order. -/
structure OrdersApi where
  getVariantBySku : JVal → Except PyExc String
  saveOrder : List OrderLine → Except PyExc Bool

/-- Observable effects of upload_orders. -/
inductive OEffect where
  | skuLookup (sku : JVal)
  | orderSave (lines : List OrderLine)
  | warnOrderFailed

/-- The body of the line-item loop.  A truthy variant_id is used
directly; otherwise li["sku"] is read — outside the try block, so a
missing sku key raises KeyError uncaught — and the lookup runs inside
the bare try/except, a failure skipping the item with an info log.
Afterwards li["quantity"] is read (KeyError when absent, uncaught).
Returns the effects and either the line to append, none for a skipped
item, or the escaping exception. -/
def processLineItem (api : OrdersApi) (li : JVal) : List OEffect × Except PyExc (Option OrderLine) :=
  let direct (v : JVal) : List OEffect × Except PyExc (Option OrderLine) :=
    match jget li "quantity" with
    | none => ([], .error (.keyError "quantity"))
    | some q => ([], .ok (some ⟨v, q⟩))
  match jget li "variant_id" with
  | some v =>
    if v.truthy then direct v
    else
      match jget li "sku" with
      | none => ([], .error (.keyError "sku"))
      | some sku =>
        match api.getVariantBySku sku with
        | .error _ => ([.skuLookup sku], .ok none)
        | .ok gid =>
          match jget li "quantity" with
          | none => ([.skuLookup sku], .error (.keyError "quantity"))
          | some q => ([.skuLookup sku], .ok (some ⟨.str gid, q⟩))
  | none =>
      match jget li "sku" with
      | none => ([], .error (.keyError "sku"))
      | some sku =>
        match api.getVariantBySku sku with
        | .error _ => ([.skuLookup sku], .ok none)
        | .ok gid =>
          match jget li "quantity" with
          | none => ([.skuLookup sku], .error (.keyError "quantity"))
          | some q => ([.skuLookup sku], .ok (some ⟨.str gid, q⟩))

/-- The line-item loop: collect the resolved lines, skipping the items
whose SKU lookup failed; the first uncaught exception aborts. -/
def lineLoop (api : OrdersApi) : List JVal → List OEffect × Except PyExc (List OrderLine)
  | [] => ([], .ok [])
  | li :: rest =>
    let (t, r) := processLineItem api li
    match r with
    | .error e => (t, .error e)
    | .ok line? =>
      let (t2, r2) := lineLoop api rest
      match r2 with
      | .error e => (t ++ t2, .error e)
      | .ok lines => (t ++ t2, .ok (match line? with | some l => l :: lines | none => lines))

/-- The body of the per-order loop: read o["line_items"] (KeyError when
absent), run the line loop, set the lines on the order and save it
through insert_record, warning when the save returns falsy and
propagating an exception it raises. -/
def processOrder (api : OrdersApi) (o : JVal) : List OEffect × Option PyExc :=
  match jget o "line_items" with
  | none => ([], some (.keyError "line_items"))
  | some (.arr lis) =>
    let (t, r) := lineLoop api lis
    match r with
    | .error e => (t, some e)
    | .ok lines =>
      match api.saveOrder lines with
      | .error e => (t ++ [.orderSave lines], some e)
      | .ok true => (t ++ [.orderSave lines], none)
      | .ok false => (t ++ [.orderSave lines, .warnOrderFailed], none)
  | some _ => ([], some .typeError)

/-- The per-order loop: as in upload_products, an uncaught exception in
one record aborts the remaining records of the file. -/
def ordersLoop (api : OrdersApi) : List JVal → List OEffect × Option PyExc
  | [] => ([], none)
  | o :: rest =>
    let (t, e) := processOrder api o
    match e with
    | some err => (t, some err)
    | none =>
      let (t2, e2) := ordersLoop api rest
      (t ++ t2, e2)

/-- upload_orders over the records of orders.json. -/
def upload_orders (api : OrdersApi) (orders : List JVal) : List OEffect × Option PyExc :=
  ordersLoop api orders

/-- Whether an orders effect is a SKU lookup call. -/
def isSkuLookup : OEffect → Bool
  | .skuLookup _ => true
  | _ => false

/-- Whether an orders effect is the order save. -/
def isOrderSave : OEffect → Bool
  | .orderSave _ => true
  | _ => false

/-! ## update_product

Per update record the code locates the remote product by id (skipping
the record with a warning on ResourceNotFound), applies a whitelist of
top-level fields, possibly synthesizes a single-variant update from a
bare inventory_quantity, then per variant entry locates the remote
variant by id (skipping it with a warning on ResourceNotFound), applies
price/title, issues InventoryLevel.set for inventory_quantity, and saves
the variant and finally the product through insert_record. -/

/-- A remote variant as returned by shopify.Variant.find: its id, the
inventory_item_id used by the inventory call, and its mutable fields. -/
structure RemoteVariant where
  vid : Nat
  inventory_item_id : Nat
  fields : List (String × JVal)

/-- A remote product as returned by shopify.Product.find: its id, the
ids of its existing variants (product.variants[0].id feeds the
synthesized update), and its mutable fields. -/
structure RemoteProduct where
  pid : Nat
  variantIds : List Nat
  fields : List (String × JVal)

/-- Oracle for the remote calls update_product makes.  find results are
Except values: .error resourceNotFound is the one exception the code
catches; any other .error escapes.  The saves are insert_record results
on the locally mutated objects. -/
structure UpdateApi where
  locations : List Nat
  findProduct : Option JVal → Except PyExc RemoteProduct
  findVariant : Option JVal → Except PyExc RemoteVariant
  saveVariant : RemoteVariant → Except PyExc Bool
  saveProduct : RemoteProduct → Except PyExc Bool

/-- Observable effects of update_product. -/
inductive UEffect where
  | warnProductNotFound (product_id : Option JVal)
  | warnVariantNotFound (variant_id : Option JVal)
  | inventorySet (locationId : Nat) (inventory_item_id : Nat) (quantity : JVal)
  | variantSave (vid : Nat)
  | warnVariantSaveFailed (vid : Nat)
  | productSave (pid : Nat)
  | warnProductSaveFailed (pid : Nat)

/-- Whether an update effect is one of the two insert_record calls. -/
def isUpdateSave : UEffect → Bool
  | .variantSave _ => true
  | .productSave _ => true
  | _ => false

/-- The `for k in keys: if k in whitelist: setattr(obj, k, rec[k])`
pattern: fold the record's fields into the object's fields, keeping only
the whitelisted keys. -/
def applyWhitelist (whitelist : List String) (fields : List (String × JVal)) :
    List (String × JVal) → List (String × JVal)
  | [] => fields
  | (k, v) :: rest =>
    applyWhitelist whitelist (if whitelist.contains k then setKey fields k v else fields) rest

/-- The `for k in v.keys()` loop of the variant step: price/title are
copied onto the variant, and an inventory_quantity key fires one
InventoryLevel.set with the variant's inventory_item_id, in key order. -/
def variantKeyLoop (loc : Nat) (iid : Nat) (fields : List (String × JVal)) :
    List (String × JVal) → List (String × JVal) × List UEffect
  | [] => (fields, [])
  | (k, v) :: rest =>
    let fields' := if k = "price" || k = "title" then setKey fields k v else fields
    let evts := if k = "inventory_quantity" then [UEffect.inventorySet loc iid v] else []
    let (f2, e2) := variantKeyLoop loc iid fields' rest
    (f2, evts ++ e2)

/-- The body of the per-variant loop: find by v.get("id") (warn and skip
on ResourceNotFound), run the key loop, save the mutated variant through
insert_record (warn on a falsy result, propagate an exception).  A
non-object v raises AttributeError at v.get. -/
def variantStep (loc : Nat) (api : UpdateApi) (v : JVal) : List UEffect × Option PyExc :=
  match v with
  | .obj kvs =>
    let variant_id := jget v "id"
    match api.findVariant variant_id with
    | .error .resourceNotFound => ([.warnVariantNotFound variant_id], none)
    | .error e => ([], some e)
    | .ok variant =>
      let (fields', evts) := variantKeyLoop loc variant.inventory_item_id variant.fields kvs
      let variant' : RemoteVariant := ⟨variant.vid, variant.inventory_item_id, fields'⟩
      match api.saveVariant variant' with
      | .error e => (evts, some e)
      | .ok true => (evts ++ [.variantSave variant.vid], none)
      | .ok false => (evts ++ [.variantSave variant.vid, .warnVariantSaveFailed variant.vid], none)
  | _ => ([], some .attributeError)

/-- The variant loop of one record. -/
def variantsLoop (loc : Nat) (api : UpdateApi) : List JVal → List UEffect × Option PyExc
  | [] => ([], none)
  | v :: rest =>
    let (t, e) := variantStep loc api v
    match e with
    | some err => (t, some err)
    | none =>
      let (t2, e2) := variantsLoop loc api rest
      (t ++ t2, e2)

/-- The body of the per-record loop of update_product: find the product
by p.get("id") (warn and skip the whole record on ResourceNotFound),
apply the top-level whitelist, synthesize p["variants"] from the first
remote variant id and p["inventory_quantity"] when the record has no
truthy variants (IndexError when the remote product has no variants,
KeyError when the record has no inventory_quantity), run the variant
loop, and save the product through insert_record. -/
def processUpdateRecord (loc : Nat) (api : UpdateApi) (p : JVal) : List UEffect × Option PyExc :=
  let product_id := jget p "id"
  match api.findProduct product_id with
  | .error .resourceNotFound => ([.warnProductNotFound product_id], none)
  | .error e => ([], some e)
  | .ok product =>
    let pfields :=
      match p with
      | .obj kvs =>
        applyWhitelist ["title", "handle", "body_html", "vendor", "product_type"] product.fields kvs
      | _ => product.fields
    let product' : RemoteProduct := ⟨product.pid, product.variantIds, pfields⟩
    let variantsRes : Except PyExc (List JVal) :=
      if !truthyOpt (jget p "variants") then
        match product.variantIds.head? with
        | none => .error .indexError
        | some vid0 =>
          match jget p "inventory_quantity" with
          | none => .error (.keyError "inventory_quantity")
          | some q => .ok [.obj [("id", .num vid0), ("inventory_quantity", q)]]
      else
        match jget p "variants" with
        | some (.arr vs) => .ok vs
        | _ => .error .typeError
    match variantsRes with
    | .error e => ([], some e)
    | .ok vs =>
      let (t, e) := variantsLoop loc api vs
      match e with
      | some err => (t, some err)
      | none =>
        match api.saveProduct product' with
        | .error e2 => (t, some e2)
        | .ok true => (t ++ [.productSave product.pid], none)
        | .ok false => (t ++ [.productSave product.pid, .warnProductSaveFailed product.pid], none)

/-- The per-record loop of update_product: an uncaught exception in one
record aborts the remaining records of the file. -/
def updateLoop (loc : Nat) (api : UpdateApi) : List JVal → List UEffect × Option PyExc
  | [] => ([], none)
  | p :: rest =>
    let (t, e) := processUpdateRecord loc api p
    match e with
    | some err => (t, some err)
    | none =>
      let (t2, e2) := updateLoop loc api rest
      (t ++ t2, e2)

/-- update_product: shopify.Location.find()[0] before the loop
(IndexError when there is no location), then the record loop. -/
def update_product (api : UpdateApi) (products : List JVal) : List UEffect × Option PyExc :=
  match api.locations.head? with
  | none => ([], some .indexError)
  | some loc => updateLoop loc api products

/-! ## upload_refunds

Per refund record the code defaults missing refund_line_items/shipping,
calls shopify.Refund.calculate, rewrites the calculated transactions and
shipping, and commits the resulting payload through insert_record. -/

/-- The calculation result: the attributes dict of the calculated
shipping, the order currency, and the attributes dicts of the calculated
transactions. -/
structure CalcResult where
  shipping : List (String × JVal)
  currency : JVal
  transactions : List (List (String × JVal))

/-- The payload committed by the second Refund call. -/
structure RefundPayload where
  order_id : JVal
  currency : JVal
  shipping : List (String × JVal)
  transactions : List (List (String × JVal))

/-- Oracle for the remote calls upload_refunds makes: calculate takes
the order id, the (defaulted) refund_line_items and the (defaulted)
shipping; save is the insert_record result on the committed payload. -/
structure RefundApi where
  calculate : JVal → JVal → JVal → CalcResult
  save : RefundPayload → Except PyExc Bool

/-- Observable effects of upload_refunds. -/
inductive REffect where
  | calculateCall (order_id : JVal) (refund_line_items : JVal) (shipping : JVal)
  | refundCommit (payload : RefundPayload)
  | warnRefundFailed (order_id : JVal)

/-- The transactions loop: each calculated transaction's attributes dict
gets amount := its maximum_refundable (KeyError when the key is absent)
and kind := "refund", and is appended. -/
def mapTransactions : List (List (String × JVal)) → Except PyExc (List (List (String × JVal)))
  | [] => .ok []
  | t :: rest =>
    match lookupKV t "maximum_refundable" with
    | none => .error (.keyError "maximum_refundable")
    | some m =>
      let t' := setKey (setKey t "amount" m) "kind" (.str "refund")
      match mapTransactions rest with
      | .error e => .error e
      | .ok ts => .ok (t' :: ts)

/-- The body of the per-refund loop: default refund_line_items to [] and
shipping to None when absent, read refund["order_id"] (KeyError when
absent), call calculate, rewrite the transactions and the shipping
amount, build the payload carrying the original order_id and the
calculated currency, and commit it through insert_record (warning keyed
by order id on a falsy result).  The shopify.Refund(refund) object the
source builds first is never used and has no effect. -/
def refundDefaults (refund : JVal) : JVal :=
  let r := if hasKey refund "refund_line_items" then refund
           else jset refund "refund_line_items" (.arr [])
  if hasKey r "shipping" then r else jset r "shipping" .null

/-- The rest of the per-refund loop body, after the defaulting steps. -/
def processRefund (api : RefundApi) (refund : JVal) : List REffect × Option PyExc :=
  let r := refundDefaults refund
  match jget r "order_id" with
  | none => ([], some (.keyError "order_id"))
  | some oid =>
    let rli := (jget r "refund_line_items").getD .null
    let shp := (jget r "shipping").getD .null
    let calced := api.calculate oid rli shp
    let callEvt := REffect.calculateCall oid rli shp
    match mapTransactions calced.transactions with
    | .error e => ([callEvt], some e)
    | .ok transactions =>
      match lookupKV calced.shipping "maximum_refundable" with
      | none => ([callEvt], some (.keyError "maximum_refundable"))
      | some m =>
        let shipping := setKey calced.shipping "amount" m
        let payload : RefundPayload := ⟨oid, calced.currency, shipping, transactions⟩
        match api.save payload with
        | .error e => ([callEvt, .refundCommit payload], some e)
        | .ok true => ([callEvt, .refundCommit payload], none)
        | .ok false => ([callEvt, .refundCommit payload, .warnRefundFailed oid], none)

/-- The per-refund loop: an uncaught exception in one record aborts the
remaining records of the file. -/
def refundsLoop (api : RefundApi) : List JVal → List REffect × Option PyExc
  | [] => ([], none)
  | r :: rest =>
    let (t, e) := processRefund api r
    match e with
    | some err => (t, some err)
    | none =>
      let (t2, e2) := refundsLoop api rest
      (t ++ t2, e2)

/-- upload_refunds over the records of refunds.json. -/
def upload_refunds (api : RefundApi) (refunds : List JVal) : List REffect × Option PyExc :=
  refundsLoop api refunds

/-- The committed payloads of a refunds trace. -/
def commitsOf (trace : List REffect) : List RefundPayload :=
  trace.filterMap fun e => match e with | .refundCommit p => some p | _ => none

/-! ## The upload orchestrator

upload checks for the seven input files with os.path.exists in a fixed
textual order; for each present file it logs a start banner, runs the
handler, and logs a finish banner, ending with a completion log.  The
handlers are abstracted by the function run, which reports the uncaught
exception a handler raises, if any; such an exception propagates out of
upload (and out of main), aborting the run. -/

/-- The fixed file order of the seven existence checks in upload. -/
def uploadFiles : List String :=
  ["fulfill_order.json", "update_fulfillments.json", "products.json", "orders.json",
   "update_product.json", "update_inventory.json", "refunds.json"]

/-- Observable events of the orchestrator. -/
inductive UploadEvt where
  | logStart (f : String)
  | process (f : String)
  | logFinish (f : String)
  | logDone
deriving DecidableEq

/-- One guarded block of upload: skip an absent file; for a present one
log the start banner, run the handler, and log the finish banner unless
the handler raised. -/
def uploadStep (present : String → Bool) (run : String → Option PyExc) (f : String) :
    List UploadEvt × Option PyExc :=
  if present f then
    match run f with
    | some e => ([.logStart f, .process f], some e)
    | none => ([.logStart f, .process f, .logFinish f], none)
  else ([], none)

/-- The sequence of the seven guarded blocks, followed by the completion
log; an exception from a handler aborts everything after it. -/
def uploadLoop (present : String → Bool) (run : String → Option PyExc) :
    List String → List UploadEvt × Option PyExc
  | [] => ([.logDone], none)
  | f :: rest =>
    let (t, e) := uploadStep present run f
    match e with
    | some err => (t, some err)
    | none =>
      let (t2, e2) := uploadLoop present run rest
      (t ++ t2, e2)

/-- upload(client, config): the seven existence checks in source order. -/
def upload (present : String → Bool) (run : String → Option PyExc) :
    List UploadEvt × Option PyExc :=
  uploadLoop present run uploadFiles

/-! ## Shared lemmas -/

/-- Dict assignment followed by lookup of the same key. -/
theorem lookupKV_setKey_self (l : List (String × JVal)) (k : String) (v : JVal) :
    lookupKV (setKey l k v) k = some v := by
  induction l with
  | nil => simp [setKey, lookupKV]
  | cons hd tl ih =>
    obtain ⟨k', v'⟩ := hd
    by_cases h : k' = k
    · simp [setKey, h, lookupKV]
    · simp [setKey, h, lookupKV, ih]

/-- Dict assignment leaves the other keys unchanged. -/
theorem lookupKV_setKey_of_ne (l : List (String × JVal)) (k k' : String) (v : JVal)
    (h : k' ≠ k) : lookupKV (setKey l k v) k' = lookupKV l k' := by
  have hks : ¬k = k' := fun hh => h hh.symm
  induction l with
  | nil => simp [setKey, lookupKV, hks]
  | cons hd tl ih =>
    obtain ⟨k0, v0⟩ := hd
    by_cases h0 : k0 = k
    · subst h0; simp [setKey, lookupKV, hks]
    · simp [setKey, h0, lookupKV, ih]

/-- jset followed by jget of the same key, on an object. -/
theorem jget_jset_self (kvs : List (String × JVal)) (k : String) (v : JVal) :
    jget (jset (.obj kvs) k v) k = some v := by
  simp [jset, jget, lookupKV_setKey_self]

/-- jset leaves the other keys of a value unchanged. -/
theorem jget_jset_of_ne (j : JVal) (k k' : String) (v : JVal) (h : k' ≠ k) :
    jget (jset j k v) k' = jget j k' := by
  cases j <;> simp [jset, jget]
  exact lookupKV_setKey_of_ne _ _ _ _ h

/-! ## The claims -/

/-- The 429-classified client error of the retry scenarios: status code
429 with a Retry-After header naming two seconds. -/
def err429 : PyExc := .clientError (some 429) [("Retry-After", "2")]

/-- A 429 whose Retry-After header arrives fully uppercased (neither of
the two exact keys the code reads). -/
def err429Upper : PyExc := .clientError (some 429) [("RETRY-AFTER", "2")]

/-- A non-429 client error (status 404, no headers). -/
def err404 : PyExc := .clientError (some 404) []

/-- C1, counterexample.  The claim predicts that an operation raising a
429 with Retry-After: 2 exactly twice and then succeeding makes the
wrapper sleep the Retry-After duration twice; in fact the single-yield
wait generator serves only the first 429 of the invocation, so the run
requests exactly one Retry-After sleep (the second 429 falls to the
outer exponential policy), and ten consecutive 429s are not retried
indefinitely but end in a propagated error once the outer budget is
exhausted; a header spelled RETRY-AFTER is not honored at all, belying
the case-insensitive read. -/
theorem C1_claim_counterexample :
    insert_record [.error err429, .error err429, .ok true]
      = some ([.retryAfter 2, .expo 1], 3, .ok true)
    ∧ countRetryAfter (sleepsOf (insert_record [.error err429, .error err429, .ok true])) = 1
    ∧ (1 : Nat) ≠ 2
    ∧ endsInError (insert_record (List.replicate 10 (.error err429))) = true
    ∧ countRetryAfter (sleepsOf (insert_record [.error err429Upper, .ok true])) = 0 :=
  ⟨rfl, rfl, by decide, rfl, rfl⟩

/-- C1, amended.  Only the first 429 of each insert_record invocation is
kept off the bounded budget: the wrapper sleeps the floor of the
Retry-After value (read at the exact keys Retry-After then retry-after)
once and retries; a second consecutive 429 exhausts the single-yield
wait generator, so it is re-raised to the outer exponential-backoff
policy and counts there.  A 429 twice with Retry-After: 2 then a success
gives one 2-second Retry-After sleep, one exponential sleep, and the
success value; 429s on every attempt exhaust the bounded budget after
five outer tries (two saves each) and propagate. -/
theorem C1_amended_retry_after (b : Bool) :
    insert_record [.error err429, .ok b] = some ([.retryAfter 2], 2, .ok b)
    ∧ insert_record [.error err429, .error err429, .ok b]
        = some ([.retryAfter 2, .expo 1], 3, .ok b)
    ∧ insert_record (List.replicate 10 (.error err429))
        = some ([.retryAfter 2, .expo 1, .retryAfter 2, .expo 2, .retryAfter 2, .expo 4,
                 .retryAfter 2, .expo 8, .retryAfter 2], 10, .error err429) := by
  refine ⟨?_, ?_, ?_⟩ <;> cases b <;> rfl

/-- C2, counterexample.  The claim predicts that a non-429 client error
is propagated immediately with no retry of any kind; in fact the outer
decorator's exception tuple ends in the bare Exception, which includes
client errors, so the wrapper retries: an operation raising one 404 and
then succeeding consumes two save attempts, sleeps one exponential
backoff, and returns the success. -/
theorem C2_claim_counterexample :
    insert_record [.error err404, .ok true] = some ([.expo 1], 2, .ok true)
    ∧ attemptsOf (insert_record [.error err404, .ok true]) = 2
    ∧ (2 : Nat) ≠ 1 :=
  ⟨rfl, rfl, by decide⟩

/-- C2, amended.  For a client error whose truthy status code is not
429, the inner Retry-After policy gives up immediately (no Retry-After
sleep ever), but the outer policy catches Exception, which includes
client errors, and retries with exponential backoff: the error
propagates only after the bounded budget of MAX_RETRIES (5) attempts is
exhausted, and an intervening success is returned. -/
theorem C2_amended_outer_retries (c : Nat) (hs : List (String × String)) (b : Bool)
    (hc : c ≠ 429) (hc0 : c ≠ 0) :
    insert_record [.error (.clientError (some c) hs), .ok b] = some ([.expo 1], 2, .ok b)
    ∧ insert_record (List.replicate 5 (.error (.clientError (some c) hs)))
        = some ([.expo 1, .expo 2, .expo 4, .expo 8], 5,
                .error (.clientError (some c) hs)) := by
  have hg : is_not_status_code_fn [429] (.clientError (some c) hs) = true := by
    simp [is_not_status_code_fn, hc0, hc]
  have hinner : ∀ rest fresh, innerRetry (.error (.clientError (some c) hs) :: rest) fresh
      = some ([], 1, .error (.clientError (some c) hs)) := by
    intro rest fresh
    simp [innerRetry, isClientError, hg]
  have hok : ∀ (b : Bool) rest fresh, innerRetry (.ok b :: rest) fresh = some ([], 1, .ok b) :=
    fun _ _ _ => rfl
  constructor
  · simp [insert_record, MAX_RETRIES, outerRetry, hinner, hok]
  · simp [insert_record, MAX_RETRIES, List.replicate, outerRetry, hinner]

/-- C2, witness for the amended theorem at c = 404. -/
theorem C2_amended_outer_retries_witness :
    (404 : Nat) ≠ 429 ∧ (404 : Nat) ≠ 0
    ∧ insert_record [.error (.clientError (some 404) []), .ok true]
        = some ([.expo 1], 2, .ok true) :=
  ⟨by decide, by decide,
   (C2_amended_outer_retries 404 [] true (by decide) (by decide)).1⟩

/-- C3.  For an operation failing with an error outside ClientError (a
server error, a malformed-response error, a JSON decode error), the
wrapper retries with exponential backoff and gives up after exactly
MAX_RETRIES = 5 save attempts, propagating the final error whatever
outcomes would follow; when an attempt up to the fifth succeeds, its
result is returned. -/
theorem C3_bounded_exponential_retry (e : PyExc) (he : isClientError e = false) :
    (∀ rest, insert_record (List.replicate 5 (.error e) ++ rest)
        = some ([.expo 1, .expo 2, .expo 4, .expo 8], 5, .error e))
    ∧ (∀ b : Bool,
        insert_record [.ok b] = some ([], 1, .ok b)
        ∧ insert_record [.error e, .ok b] = some ([.expo 1], 2, .ok b)
        ∧ insert_record [.error e, .error e, .ok b] = some ([.expo 1, .expo 2], 3, .ok b)
        ∧ insert_record [.error e, .error e, .error e, .ok b]
            = some ([.expo 1, .expo 2, .expo 4], 4, .ok b)
        ∧ insert_record [.error e, .error e, .error e, .error e, .ok b]
            = some ([.expo 1, .expo 2, .expo 4, .expo 8], 5, .ok b)) := by
  have hinner : ∀ rest fresh, innerRetry (.error e :: rest) fresh = some ([], 1, .error e) := by
    intro rest fresh
    simp [innerRetry, he]
  have hok : ∀ (b : Bool) rest fresh, innerRetry (.ok b :: rest) fresh = some ([], 1, .ok b) :=
    fun _ _ _ => rfl
  constructor
  · intro rest
    simp [insert_record, MAX_RETRIES, List.replicate, outerRetry, hinner]
  · intro b
    refine ⟨rfl, ?_, ?_, ?_, ?_⟩ <;>
      simp [insert_record, MAX_RETRIES, outerRetry, hinner, hok]

/-- C3, witness at the server error. -/
theorem C3_bounded_exponential_retry_witness :
    isClientError .serverError = false
    ∧ insert_record (List.replicate 5 (.error .serverError) ++ [])
        = some ([.expo 1, .expo 2, .expo 4, .expo 8], 5, .error .serverError)
    ∧ insert_record [.error .serverError, .ok true] = some ([.expo 1], 2, .ok true) :=
  ⟨by decide,
   (C3_bounded_exponential_retry .serverError (by decide)).1 [],
   ((C3_bounded_exponential_retry .serverError (by decide)).2 true).2.1⟩

/-- A products oracle whose saves succeed and return no variants. -/
def plainProductsApi : ProductsApi :=
  ⟨"gid://shopify/Location/77", fun _ => (true, [])⟩

/-- A product record with no title. -/
def productNoTitle : JVal := .obj [("vendor", .str "V")]

/-- A well-formed product record, title only. -/
def productPlain : JVal := .obj [("title", .str "G")]

/-- C4, counterexample.  The claim predicts that any per-record failure
is caught and the loop proceeds to the next record; in fact the
per-product loop of upload_products has no handler at all: with a first
record lacking the required title, the KeyError aborts the file and the
second record — which alone would be saved — is never processed (its
save count drops from one to zero). -/
theorem C4_claim_counterexample :
    upload_products plainProductsApi [productNoTitle, productPlain]
      = ([], some (.keyError "title"))
    ∧ (upload_products plainProductsApi [productPlain]).1.countP isProductSave = 1
    ∧ (upload_products plainProductsApi [productNoTitle, productPlain]).1.countP
        isProductSave = 0 := by
  refine ⟨by rfl, by rfl, by rfl⟩

/-- C4, amended.  Per-record failures are contained only where the code
installs a handler: in update_product a ResourceNotFound from the
variant lookup is caught, logged as a warning, and the loop proceeds to
the remaining variants unchanged; but a failure without such a handler
— here a product record without the required title in upload_products —
raises, and an exception from one record aborts all remaining records
of the file. -/
theorem C4_amended_containment (loc : Nat) (api : UpdateApi) (kvs : List (String × JVal))
    (rest : List JVal)
    (h : api.findVariant (jget (.obj kvs) "id") = .error .resourceNotFound) :
    variantsLoop loc api (.obj kvs :: rest)
      = (.warnVariantNotFound (jget (.obj kvs) "id") :: (variantsLoop loc api rest).1,
         (variantsLoop loc api rest).2)
    ∧ (∀ lid papi p, jget p "title" = none →
        processProduct lid papi p = ([], some (.keyError "title")))
    ∧ (∀ lid papi p t e rest2, processProduct lid papi p = (t, some e) →
        productsLoop lid papi (p :: rest2) = (t, some e)) := by
  refine ⟨?_, ?_, ?_⟩
  · simp [variantsLoop, variantStep, h]
  · intro lid papi p hp
    simp [processProduct, hp]
  · intro lid papi p t e rest2 hpe
    simp [productsLoop, hpe]

/-- An update_product oracle under which every variant id is unknown. -/
def noVariantApi : UpdateApi :=
  ⟨[99], fun _ => .ok ⟨1, [44], []⟩, fun _ => .error .resourceNotFound,
   fun _ => .ok true, fun _ => .ok true⟩

/-- C4, witness for the amended theorem: one unknown variant id yields
exactly the warning and an empty continuation. -/
theorem C4_amended_containment_witness :
    noVariantApi.findVariant (jget (.obj [("id", .num 2)]) "id") = .error .resourceNotFound
    ∧ variantsLoop 0 noVariantApi [.obj [("id", .num 2)]]
      = (.warnVariantNotFound (jget (.obj [("id", .num 2)]) "id")
          :: (variantsLoop 0 noVariantApi []).1,
         (variantsLoop 0 noVariantApi []).2) :=
  ⟨rfl, (C4_amended_containment 0 noVariantApi [("id", .num 2)] [] rfl).1⟩

/-- The products oracle of the C5 scenario: the save succeeds and the
response carries one variant titled v1 with inventory item 7. -/
def c5Api : ProductsApi :=
  ⟨"gid://shopify/Location/77", fun _ => (true, [⟨.str "v1", 7⟩])⟩

/-- A product whose single variant carries no inventory_quantity key. -/
def c5Product : JVal :=
  .obj [("title", .str "T"),
        ("variants", .arr [.obj [("title", .str "v1"), ("sku", .str "s")]])]

/-- The same product with an inventory_quantity of 3 on the variant. -/
def c5ProductQ : JVal :=
  .obj [("title", .str "T"),
        ("variants", .arr [.obj [("title", .str "v1"), ("inventory_quantity", .num 3)]])]

/-- C5, the code at the failing input.  The guard
`if "inventory_quantity" not in v: pass` is a no-op, so a variant
without the key is not skipped: after the one product save the loop
still evaluates v["inventory_quantity"], raising KeyError and aborting
with no inventory-set call; with the key present the intended behavior
shows — exactly one product save and exactly one inventory-set bound to
the title-matched variant's inventory item and the extracted location. -/
theorem C5_code_at_failing_input :
    (upload_products c5Api [c5Product]).2 = some (.keyError "inventory_quantity")
    ∧ (upload_products c5Api [c5Product]).1.countP isProductSave = 1
    ∧ (upload_products c5Api [c5Product]).1.countP isInventorySet = 0
    ∧ upload_products c5Api [c5ProductQ]
      = ([.productSave (buildProduct c5ProductQ (.str "T")),
          .inventorySet "77" 7 (.num 3)], none) := by
  refine ⟨by rfl, by rfl, by rfl, by rfl⟩

/-- The transactions loop succeeds when every calculated transaction
carries maximum_refundable, and every rewritten transaction has kind
"refund" and an amount equal to its own (preserved) maximum_refundable. -/
theorem mapTransactions_props (ts : List (List (String × JVal)))
    (h : ∀ t ∈ ts, (lookupKV t "maximum_refundable").isSome = true) :
    ∃ out, mapTransactions ts = .ok out ∧ out.length = ts.length
      ∧ ∀ t' ∈ out,
          lookupKV t' "kind" = some (.str "refund")
          ∧ lookupKV t' "amount" = lookupKV t' "maximum_refundable"
          ∧ (lookupKV t' "amount").isSome = true := by
  induction ts with
  | nil => exact ⟨[], rfl, rfl, by simp⟩
  | cons t rest ih =>
    have ht : (lookupKV t "maximum_refundable").isSome = true := h t (by simp)
    obtain ⟨m, hm⟩ := Option.isSome_iff_exists.mp ht
    obtain ⟨out, hout, hlen, hprops⟩ := ih (fun t' ht' => h t' (by simp [ht']))
    refine ⟨setKey (setKey t "amount" m) "kind" (.str "refund") :: out, ?_, by simp [hlen], ?_⟩
    · simp [mapTransactions, hm, hout]
    · intro t' ht'
      rcases List.mem_cons.mp ht' with h1 | h2
      · subst h1
        have hamount : lookupKV (setKey (setKey t "amount" m) "kind" (.str "refund")) "amount"
            = some m := by
          rw [lookupKV_setKey_of_ne _ _ _ _ (by decide), lookupKV_setKey_self]
        have hmr : lookupKV (setKey (setKey t "amount" m) "kind" (.str "refund"))
            "maximum_refundable" = some m := by
          rw [lookupKV_setKey_of_ne _ _ _ _ (by decide),
              lookupKV_setKey_of_ne _ _ _ _ (by decide), hm]
        exact ⟨lookupKV_setKey_self _ _ _, by rw [hamount, hmr], by simp [hamount]⟩
      · exact hprops t' h2

/-- C6.  upload_refunds defaults a missing refund_line_items to the
empty list and a missing shipping to null, feeds them with the record's
order_id to the calculate call, and commits exactly one payload whose
shipping amount equals the calculated shipping's maximum_refundable,
whose transactions each carry amount equal to their own
maximum_refundable and kind "refund", and which carries the original
order_id and the calculated currency. -/
theorem C6_refund_two_phase (api : RefundApi) (refund : JVal) (oid rli shp : JVal)
    (hoid : jget (refundDefaults refund) "order_id" = some oid)
    (hrli : rli = (jget (refundDefaults refund) "refund_line_items").getD .null)
    (hshp : shp = (jget (refundDefaults refund) "shipping").getD .null)
    (hship : (lookupKV (api.calculate oid rli shp).shipping "maximum_refundable").isSome = true)
    (htx : ∀ t ∈ (api.calculate oid rli shp).transactions,
        (lookupKV t "maximum_refundable").isSome = true) :
    (hasKey refund "refund_line_items" = false → rli = .arr [])
    ∧ (hasKey refund "shipping" = false → shp = .null)
    ∧ (processRefund api refund).1.head? = some (.calculateCall oid rli shp)
    ∧ (commitsOf (processRefund api refund).1).length = 1
    ∧ ∀ pl ∈ commitsOf (processRefund api refund).1,
        pl.order_id = oid
        ∧ pl.currency = (api.calculate oid rli shp).currency
        ∧ lookupKV pl.shipping "amount"
            = lookupKV (api.calculate oid rli shp).shipping "maximum_refundable"
        ∧ (lookupKV pl.shipping "amount").isSome = true
        ∧ pl.transactions.length = (api.calculate oid rli shp).transactions.length
        ∧ ∀ t' ∈ pl.transactions,
            lookupKV t' "kind" = some (.str "refund")
            ∧ lookupKV t' "amount" = lookupKV t' "maximum_refundable"
            ∧ (lookupKV t' "amount").isSome = true := by
  -- the record must itself be an object for its order_id read to succeed
  have hrefundObj : ∃ kvs, refund = .obj kvs := by
    cases href : refund
    case obj kvs => exact ⟨kvs, rfl⟩
    all_goals rw [href] at hoid
    all_goals simp [refundDefaults, hasKey, jget, jset] at hoid
  obtain ⟨rkvs, hrefund⟩ := hrefundObj
  obtain ⟨m, hm⟩ := Option.isSome_iff_exists.mp hship
  obtain ⟨out, hout, hlen, hprops⟩ := mapTransactions_props _ htx
  have hrun : processRefund api refund
      = ([.calculateCall oid rli shp,
          .refundCommit ⟨oid, (api.calculate oid rli shp).currency,
            setKey (api.calculate oid rli shp).shipping "amount" m, out⟩]
          ++ (match api.save ⟨oid, (api.calculate oid rli shp).currency,
                setKey (api.calculate oid rli shp).shipping "amount" m, out⟩ with
              | .error _ => []
              | .ok true => []
              | .ok false => [.warnRefundFailed oid]),
         match api.save ⟨oid, (api.calculate oid rli shp).currency,
            setKey (api.calculate oid rli shp).shipping "amount" m, out⟩ with
          | .error e => some e
          | .ok _ => none) := by
    rw [processRefund, hoid, ← hrli, ← hshp]
    simp only [hout, hm]
    cases hsave : api.save ⟨oid, (api.calculate oid rli shp).currency,
        setKey (api.calculate oid rli shp).shipping "amount" m, out⟩ with
    | error e => simp
    | ok b => cases b <;> simp
  have hcommits : commitsOf (processRefund api refund).1
      = [⟨oid, (api.calculate oid rli shp).currency,
          setKey (api.calculate oid rli shp).shipping "amount" m, out⟩] := by
    rw [hrun]
    cases api.save ⟨oid, (api.calculate oid rli shp).currency,
        setKey (api.calculate oid rli shp).shipping "amount" m, out⟩ with
    | error e => rfl
    | ok b => cases b <;> rfl
  refine ⟨?_, ?_, ?_, ?_, ?_⟩
  · -- the refund_line_items default
    intro hmiss
    rw [hrefund] at hmiss
    have hnone : lookupKV rkvs "refund_line_items" = none := by
      simp only [hasKey, jget] at hmiss
      cases h : lookupKV rkvs "refund_line_items"
      · rfl
      · rw [h] at hmiss; simp at hmiss
    rw [hrli, hrefund, refundDefaults]
    simp only [hasKey, jget, jset, hnone, Option.isSome_none, Bool.false_eq_true, if_false]
    by_cases hs : (lookupKV (setKey rkvs "refund_line_items" (.arr [])) "shipping").isSome = true
    · simp [hs, jget, lookupKV_setKey_self]
    · rw [if_neg hs]
      show (lookupKV (setKey (setKey rkvs "refund_line_items" (JVal.arr [])) "shipping"
        JVal.null) "refund_line_items").getD JVal.null = JVal.arr []
      rw [lookupKV_setKey_of_ne _ _ _ _ (by decide), lookupKV_setKey_self]
      rfl
  · -- the shipping default
    intro hmiss
    rw [hrefund] at hmiss
    have hnone : lookupKV rkvs "shipping" = none := by
      simp only [hasKey, jget] at hmiss
      cases h : lookupKV rkvs "shipping"
      · rfl
      · rw [h] at hmiss; simp at hmiss
    rw [hshp, hrefund, refundDefaults]
    simp only [hasKey, jget, jset]
    by_cases h1 : (lookupKV rkvs "refund_line_items").isSome = true
    · simp only [h1, if_true, hnone, Option.isSome_none, Bool.false_eq_true, if_false,
        jget, jset, lookupKV_setKey_self, Option.getD_some]
    · have h2 : lookupKV (setKey rkvs "refund_line_items" (.arr [])) "shipping" = none := by
        rw [lookupKV_setKey_of_ne _ _ _ _ (by decide)]
        exact hnone
      simp only [h1, if_false, h2, Option.isSome_none, Bool.false_eq_true,
        jget, jset, lookupKV_setKey_self, Option.getD_some]
  · rw [hrun]; rfl
  · rw [hcommits]; rfl
  · intro pl hpl
    rw [hcommits] at hpl
    have hpl' : pl = ⟨oid, (api.calculate oid rli shp).currency,
        setKey (api.calculate oid rli shp).shipping "amount" m, out⟩ := by
      simpa using hpl
    subst hpl'
    refine ⟨rfl, rfl, ?_, ?_, by simpa using hlen, fun t' ht' => hprops t' ht'⟩
    · show lookupKV (setKey (api.calculate oid rli shp).shipping "amount" m) "amount" = _
      rw [lookupKV_setKey_self, hm]
    · show (lookupKV (setKey (api.calculate oid rli shp).shipping "amount" m) "amount").isSome
        = true
      rw [lookupKV_setKey_self]
      rfl

/-- The refund record of the spec's worked example: order 55, no line
items, no shipping. -/
def refund55 : JVal := .obj [("order_id", .num 55)]

/-- The calculation result of the worked example: shipping
maximum_refundable 3.00, currency USD, one transaction with
maximum_refundable 50.00. -/
def calc55 : CalcResult :=
  ⟨[("maximum_refundable", .str "3.00")], .str "USD",
   [[("maximum_refundable", .str "50.00")]]⟩

/-- A refunds oracle answering every calculate call with calc55. -/
def refundApi55 : RefundApi := ⟨fun _ _ _ => calc55, fun _ => .ok true⟩

/-- C6, witness at the worked example. -/
theorem C6_refund_two_phase_witness :
    jget (refundDefaults refund55) "order_id" = some (.num 55)
    ∧ (JVal.arr [] = (jget (refundDefaults refund55) "refund_line_items").getD .null)
    ∧ (JVal.null = (jget (refundDefaults refund55) "shipping").getD .null)
    ∧ (lookupKV (refundApi55.calculate (.num 55) (.arr []) .null).shipping
        "maximum_refundable").isSome = true
    ∧ (∀ t ∈ (refundApi55.calculate (.num 55) (.arr []) .null).transactions,
        (lookupKV t "maximum_refundable").isSome = true)
    ∧ (commitsOf (processRefund refundApi55 refund55).1).length = 1 :=
  ⟨rfl, rfl, rfl, rfl,
   by intro t ht; simp only [refundApi55, calc55, List.mem_singleton] at ht; subst ht; rfl,
   (C6_refund_two_phase refundApi55 refund55 (.num 55) (.arr []) .null rfl rfl rfl rfl
     (by intro t ht; simp only [refundApi55, calc55, List.mem_singleton] at ht;
         subst ht; rfl)).2.2.2.1⟩

/-- C7.  For an order line item lacking a variant_id but carrying a sku,
the wrapper calls get_variant_by_sku exactly once; when that lookup
raises, the line item is excluded and the order is still saved with the
remaining resolved line items. -/
theorem C7_sku_once_and_skip (api : OrdersApi) (v q1 sku q2 : JVal) (ex : PyExc)
    (hv : v.truthy = true)
    (hlookup : api.getVariantBySku sku = .error ex)
    (hsave : api.saveOrder [⟨v, q1⟩] = .ok true) :
    processLineItem api (.obj [("sku", sku), ("quantity", q2)]) = ([.skuLookup sku], .ok none)
    ∧ upload_orders api [.obj [("line_items",
        .arr [.obj [("variant_id", v), ("quantity", q1)], .obj [("sku", sku), ("quantity", q2)]])]]
      = ([.skuLookup sku, .orderSave [⟨v, q1⟩]], none)
    ∧ [OEffect.skuLookup sku, .orderSave [⟨v, q1⟩]].countP isSkuLookup = 1
    ∧ [OEffect.skuLookup sku, .orderSave [⟨v, q1⟩]].countP isOrderSave = 1 := by
  have hitem : processLineItem api (.obj [("sku", sku), ("quantity", q2)])
      = ([.skuLookup sku], .ok none) := by
    simp [processLineItem, jget, lookupKV, hlookup]
  have hitem1 : processLineItem api (.obj [("variant_id", v), ("quantity", q1)])
      = ([], .ok (some ⟨v, q1⟩)) := by
    simp [processLineItem, jget, lookupKV, hv]
  refine ⟨hitem, ?_, by rfl, by rfl⟩
  simp [upload_orders, ordersLoop, processOrder, lineLoop, hitem1, hitem, jget, lookupKV,
    hsave]

/-- An orders oracle under which every SKU lookup raises and every order
save succeeds. -/
def ordersApiC7 : OrdersApi := ⟨fun _ => .error .otherExc, fun _ => .ok true⟩

/-- C7, witness: a direct line item plus an unresolvable one. -/
theorem C7_sku_once_and_skip_witness :
    (JVal.num 9).truthy = true
    ∧ ordersApiC7.getVariantBySku (.str "S") = .error .otherExc
    ∧ ordersApiC7.saveOrder [⟨.num 9, .num 1⟩] = .ok true
    ∧ upload_orders ordersApiC7 [.obj [("line_items",
        .arr [.obj [("variant_id", .num 9), ("quantity", .num 1)],
              .obj [("sku", .str "S"), ("quantity", .num 2)]])]]
      = ([.skuLookup (.str "S"), .orderSave [⟨.num 9, .num 1⟩]], none) :=
  ⟨rfl, rfl, rfl,
   (C7_sku_once_and_skip ordersApiC7 (.num 9) (.num 1) (.str "S") (.num 2) .otherExc
     rfl rfl rfl).2.1⟩

/-- C8.  When the remote product lookup of an update record raises
ResourceNotFound, update_product emits exactly the warning — no save of
any kind — and the loop continues with the subsequent records exactly as
if the record were absent. -/
theorem C8_update_product_skip (loc : Nat) (api : UpdateApi) (p : JVal) (rest : List JVal)
    (h : api.findProduct (jget p "id") = .error .resourceNotFound) :
    processUpdateRecord loc api p = ([.warnProductNotFound (jget p "id")], none)
    ∧ updateLoop loc api (p :: rest)
        = (.warnProductNotFound (jget p "id") :: (updateLoop loc api rest).1,
           (updateLoop loc api rest).2)
    ∧ [UEffect.warnProductNotFound (jget p "id")].countP isUpdateSave = 0 := by
  have h0 : processUpdateRecord loc api p = ([.warnProductNotFound (jget p "id")], none) := by
    simp only [processUpdateRecord, h]
  refine ⟨h0, ?_, by rfl⟩
  simp [updateLoop, h0]

/-- An update_product oracle under which every product id is unknown. -/
def rnfProductApi : UpdateApi :=
  ⟨[99], fun _ => .error .resourceNotFound, fun _ => .error .resourceNotFound,
   fun _ => .ok true, fun _ => .ok true⟩

/-- C8, witness: one unknown product id, an empty continuation. -/
theorem C8_update_product_skip_witness :
    rnfProductApi.findProduct (jget (.obj [("id", .num 5)]) "id") = .error .resourceNotFound
    ∧ processUpdateRecord 99 rnfProductApi (.obj [("id", .num 5)])
        = ([.warnProductNotFound (jget (.obj [("id", .num 5)]) "id")], none) :=
  ⟨rfl, (C8_update_product_skip 99 rnfProductApi (.obj [("id", .num 5)]) [] rfl).1⟩

/-- C9.  When no handler raises, upload visits exactly the present files,
in the fixed source order fulfill_order, update_fulfillments, products,
orders, update_product, update_inventory, refunds, emitting a start log,
the processing, and a finish log for each, then the completion log. -/
theorem C9_upload_fixed_order (present : String → Bool) (run : String → Option PyExc)
    (h : ∀ f, run f = none) :
    upload present run
      = ((uploadFiles.filter present).flatMap
          (fun f => [.logStart f, .process f, .logFinish f]) ++ [.logDone], none) := by
  have loop : ∀ fs : List String, uploadLoop present run fs
      = ((fs.filter present).flatMap
          (fun f => [.logStart f, .process f, .logFinish f]) ++ [.logDone], none) := by
    intro fs
    induction fs with
    | nil => simp [uploadLoop]
    | cons f rest ih =>
      cases hp : present f <;>
        simp [uploadLoop, uploadStep, h f, hp, ih, List.filter_cons]
  exact loop uploadFiles

/-- C9, witness: all seven files present, every handler clean. -/
theorem C9_upload_fixed_order_witness :
    (∀ f : String, (fun _ : String => (none : Option PyExc)) f = none)
    ∧ upload (fun _ => true) (fun _ => none)
      = ((uploadFiles.filter (fun _ => true)).flatMap
          (fun f => [.logStart f, .process f, .logFinish f]) ++ [.logDone], none) :=
  ⟨fun _ => rfl, C9_upload_fixed_order (fun _ => true) (fun _ => none) (fun _ => rfl)⟩

/-- C10.  A line item with neither a variant_id nor a sku key raises
KeyError at the li["sku"] read, which sits outside the try block around
the lookup: the item is not skipped, the whole orders file aborts with
no order saved, and the exception propagates out of upload, cutting the
run short before the later files and the completion log. -/
theorem C10_missing_sku_aborts (api : OrdersApi) (kvs : List (String × JVal))
    (rest restOrders : List JVal)
    (h1 : lookupKV kvs "variant_id" = none) (h2 : lookupKV kvs "sku" = none) :
    processLineItem api (.obj kvs) = ([], .error (.keyError "sku"))
    ∧ upload_orders api (.obj [("line_items", .arr (.obj kvs :: rest))] :: restOrders)
        = ([], some (.keyError "sku"))
    ∧ upload (fun _ => true)
        (fun f => if f = "orders.json" then some (.keyError "sku") else none)
      = ([.logStart "fulfill_order.json", .process "fulfill_order.json",
          .logFinish "fulfill_order.json",
          .logStart "update_fulfillments.json", .process "update_fulfillments.json",
          .logFinish "update_fulfillments.json",
          .logStart "products.json", .process "products.json", .logFinish "products.json",
          .logStart "orders.json", .process "orders.json"],
         some (.keyError "sku")) := by
  have hitem : processLineItem api (.obj kvs) = ([], .error (.keyError "sku")) := by
    simp [processLineItem, jget, h1, h2]
  refine ⟨hitem, ?_, by rfl⟩
  simp [upload_orders, ordersLoop, processOrder, lineLoop, hitem, jget, lookupKV]

/-- C10, witness: a line item carrying only a quantity. -/
theorem C10_missing_sku_aborts_witness :
    lookupKV [("quantity", JVal.num 1)] "variant_id" = none
    ∧ lookupKV [("quantity", JVal.num 1)] "sku" = none
    ∧ upload_orders ordersApiC7
        (.obj [("line_items", .arr [.obj [("quantity", JVal.num 1)]])] :: [])
        = ([], some (.keyError "sku")) :=
  ⟨rfl, rfl,
   (C10_missing_sku_aborts ordersApiC7 [("quantity", JVal.num 1)] [] [] rfl rfl).2.1⟩

end TargetShopify
